import Mathlib

/-!
Verification of the zonneplan-chat-cli RAG pipeline.

Shallow embedding of the retrieval-to-answer path (`src/chat.ts`,
`RAGChatbot.generateAnswer`), the chunk identity function
(`src/utils/crypto.ts`, `generateChunkId`), the fallback vector-store
persistence (`createFallbackMemoryStore` / `loadFallbackMemoryStore` /
`loadVectorStore`), and the batched ChromaDB ingestion
(`createVectorStoreWithChromaDB`).  External services (embedding model,
LLM, ChromaDB server) are modelled as explicit parameters; the number of
calls made to a service is returned alongside results where a claim is
about call counts.
-/

namespace Zonneplan

/-- A retrieved document as consumed by `RAGChatbot.generateAnswer`
(src/chat.ts): only `pageContent` and `metadata.source` are consulted.
`metadata.source` may be absent (`undefined` in JS), hence `Option`. -/
structure Doc where
  pageContent : String
  source : Option String
deriving DecidableEq, Repr

/-- The `ChatResponse` interface of src/chat.ts.  An entry of `sources`
is `none` when the retrieved document had no `metadata.source`. -/
structure ChatResponse where
  answer : String
  sources : List (Option String)
  foundRelevantInfo : Bool
deriving DecidableEq, Repr

/-- First-seen-order deduplication: shallow embedding of the JS idiom
`[...new Set(xs)]` (JS `Set` iterates in insertion order and keeps the
first occurrence of each value).  Written structurally — keep the head,
then drop later occurrences of it from the deduplicated tail — so that
it reduces in the kernel; `dedupFirst_cons_filter` below shows it equals
the direct keep-first recursion. -/
def dedupFirst {α : Type} [DecidableEq α] : List α → List α
  | [] => []
  | x :: xs => x :: (dedupFirst xs).filter (fun y => decide (y ≠ x))

theorem mem_dedupFirst {α : Type} [DecidableEq α] (l : List α) (a : α) :
    a ∈ dedupFirst l ↔ a ∈ l := by
  induction l with
  | nil => simp [dedupFirst]
  | cons x xs ih =>
    simp only [dedupFirst, List.mem_cons, List.mem_filter, ih,
      decide_eq_true_eq]
    constructor
    · rintro (rfl | ⟨h, _⟩)
      · exact Or.inl rfl
      · exact Or.inr h
    · rintro (rfl | h)
      · exact Or.inl rfl
      · by_cases hax : a = x
        · exact Or.inl hax
        · exact Or.inr ⟨h, hax⟩

theorem sublist_dedupFirst {α : Type} [DecidableEq α] (l : List α) :
    List.Sublist (dedupFirst l) l := by
  induction l with
  | nil => simp [dedupFirst]
  | cons x xs ih =>
    rw [dedupFirst]
    exact List.Sublist.cons₂ x ((List.filter_sublist (dedupFirst xs)).trans ih)

theorem nodup_dedupFirst {α : Type} [DecidableEq α] (l : List α) :
    (dedupFirst l).Nodup := by
  induction l with
  | nil => simp [dedupFirst]
  | cons x xs ih =>
    rw [dedupFirst]
    refine List.nodup_cons.mpr ⟨?_, ih.filter _⟩
    intro hmem
    simp [List.mem_filter] at hmem

/-- Filtering commutes with first-seen deduplication. -/
theorem filter_dedupFirst {α : Type} [DecidableEq α] (p : α → Bool) (l : List α) :
    (dedupFirst l).filter p = dedupFirst (l.filter p) := by
  induction l with
  | nil => simp [dedupFirst]
  | cons x xs ih =>
    by_cases hx : p x = true
    · rw [dedupFirst, List.filter_cons_of_pos hx, List.filter_cons_of_pos hx,
        dedupFirst, ← ih, List.filter_filter, List.filter_filter]
      exact congrArg (x :: ·) (List.filter_congr (fun a _ => by rw [Bool.and_comm]))
    · rw [dedupFirst, List.filter_cons_of_neg (by simpa using hx),
        List.filter_cons_of_neg (by simpa using hx), ← ih, List.filter_filter]
      refine List.filter_congr (fun a _ => ?_)
      by_cases hpa : p a = true
      · have hax : decide (a ≠ x) = true := by
          simp only [decide_eq_true_eq]
          intro h
          rw [h] at hpa
          exact hx hpa
        rw [hpa, hax]
        rfl
      · simp only [Bool.not_eq_true] at hpa
        rw [hpa, Bool.false_and]

/-- `dedupFirst` satisfies the direct keep-first recursion: keep the
first occurrence, delete every later occurrence, recurse. -/
theorem dedupFirst_cons_filter {α : Type} [DecidableEq α] (x : α) (xs : List α) :
    dedupFirst (x :: xs) = x :: dedupFirst (xs.filter (fun y => decide (y ≠ x))) := by
  rw [dedupFirst, filter_dedupFirst]

/-- The fixed fallback answer returned when retrieval yields no results
(src/chat.ts lines 104-111). -/
def noInfoAnswer : String :=
  "Ik kan deze vraag niet beantwoorden op basis van de beschikbare informatie. Probeer een andere vraag over zonnepanelen, energie of financiering."

/-- The fixed generic apology returned when the LLM invocation fails
(src/chat.ts lines 135-143). -/
def apologyAnswer : String :=
  "Sorry, er is een fout opgetreden bij het verwerken van je vraag. Probeer het later nog eens."

/-- `RAGChatbot.createPrompt` (src/chat.ts lines 78-96): the grounded
Dutch prompt template with the context block and question interpolated. -/
def createPrompt (context question : String) : String :=
  "Je bent een behulpzame AI-assistent van Zonneplan die vragen beantwoordt over zonnepanelen, energie en financiering.\n\nGebruik ALLEEN de onderstaande context om de vraag te beantwoorden. Als de informatie niet in de context staat, zeg dan eerlijk dat je het niet weet.\n\nContext:\n"
    ++ context
    ++ "\n\nVraag: "
    ++ question
    ++ "\n\nInstructies:\n- Beantwoord in het Nederlands\n- Wees beknopt maar informatief\n- Gebruik alleen informatie uit de gegeven context\n- Verwijs naar bronnen als dat relevant is\n- Als je het antwoord niet weet op basis van de context, zeg dan: \"Ik kan deze vraag niet beantwoorden op basis van de beschikbare informatie.\"\n\nAntwoord:"

/-- The context block built by `generateAnswer` (src/chat.ts lines
114-116): chunks numbered `[1] ...`, `[2] ...` in retrieval order,
joined by blank lines. -/
def buildContext (docs : List Doc) : String :=
  String.intercalate "\n\n"
    (docs.enum.map (fun p => "[" ++ toString (p.1 + 1) ++ "] " ++ p.2.pageContent))

/-- Reference rendering of the numbered context lines, following the
spec wording: number the chunk texts `[k] ...`, `[k+1] ...` in order.
Used to state that `buildContext` numbers chunks in retrieval order. -/
def numberedFrom : Nat → List String → List String
  | _, [] => []
  | k, c :: cs => ("[" ++ toString k ++ "] " ++ c) :: numberedFrom (k + 1) cs

theorem enumFrom_map_numberedFrom (docs : List Doc) (k : Nat) :
    (List.enumFrom k docs).map
        (fun p => "[" ++ toString (p.1 + 1) ++ "] " ++ p.2.pageContent)
      = numberedFrom (k + 1) (docs.map (·.pageContent)) := by
  induction docs generalizing k with
  | nil => simp [numberedFrom]
  | cons d ds ih => simp [List.enumFrom, numberedFrom, ih]

theorem buildContext_eq_numbered (docs : List Doc) :
    buildContext docs
      = String.intercalate "\n\n" (numberedFrom 1 (docs.map (·.pageContent))) := by
  unfold buildContext List.enum
  rw [enumFrom_map_numberedFrom]

/-- Shallow embedding of `RAGChatbot.generateAnswer` (src/chat.ts lines
98-144).  `relevantDocs` is the list returned by `similaritySearch`;
`llm` maps the prompt to the outcome of `this.llm.invoke` (`.error` =
the invocation threw).  The second component counts LLM invocations.
The function is total: an LLM failure is absorbed into the apology
response, never re-thrown. -/
def generateAnswer (query : String) (relevantDocs : List Doc)
    (llm : String → Except Unit String) : ChatResponse × Nat :=
  if relevantDocs.length = 0 then
    ({ answer := noInfoAnswer, sources := [], foundRelevantInfo := false }, 0)
  else
    let context := buildContext relevantDocs
    let sources := dedupFirst (relevantDocs.map (·.source))
    match llm (createPrompt context query) with
    | .ok content =>
        ({ answer := content.trim, sources := sources, foundRelevantInfo := true }, 1)
    | .error _ =>
        ({ answer := apologyAnswer, sources := [], foundRelevantInfo := false }, 1)

/-- C4: when `similaritySearch` returns an empty result list,
`generateAnswer` returns the fixed fallback answer with empty sources and
`foundRelevantInfo = false`, and the LLM is invoked zero times. -/
theorem noResult_skips_llm (query : String) (llm : String → Except Unit String) :
    generateAnswer query [] llm
      = ({ answer := noInfoAnswer, sources := [], foundRelevantInfo := false }, 0) := rfl

/-- C5: with a non-empty retrieval result, any LLM invocation failure is
absorbed: `generateAnswer` returns the fixed apology answer with empty
sources and `foundRelevantInfo = false` (the single LLM call is counted;
the function returns normally, so no exception reaches the caller). -/
theorem llm_failure_contained (query : String) (docs : List Doc)
    (llm : String → Except Unit String) (e : Unit)
    (hne : docs ≠ [])
    (hf : llm (createPrompt (buildContext docs) query) = .error e) :
    generateAnswer query docs llm
      = ({ answer := apologyAnswer, sources := [], foundRelevantInfo := false }, 1) := by
  cases docs with
  | nil => exact absurd rfl hne
  | cons d ds => simp [generateAnswer, hf]

/-- Witness for C5 at a concrete input. -/
theorem llm_failure_contained_witness :
    generateAnswer "vraag" [{ pageContent := "tekst", source := some "a.html" }]
        (fun _ => .error ())
      = ({ answer := apologyAnswer, sources := [], foundRelevantInfo := false }, 1) :=
  llm_failure_contained "vraag" _ _ () (List.cons_ne_nil _ _) rfl

/-- C7: for a non-empty retrieval result the context block numbers the
chunks `[1]`, `[2]`, ... in retrieval order, and the sources list is the
retrieved source values deduplicated in first-seen order (a duplicate-free
order-preserving sublist with the same members), e.g.
`[A, B, A, C] ↦ [A, B, C]`. -/
theorem citation_order_and_numbering (query : String) (docs : List Doc)
    (llm : String → Except Unit String) (ans : String)
    (hne : docs ≠ [])
    (hok : llm (createPrompt (buildContext docs) query) = .ok ans) :
    (generateAnswer query docs llm).1.sources = dedupFirst (docs.map (·.source))
    ∧ buildContext docs
        = String.intercalate "\n\n" (numberedFrom 1 (docs.map (·.pageContent)))
    ∧ (dedupFirst (docs.map (·.source))).Nodup
    ∧ List.Sublist (dedupFirst (docs.map (·.source))) (docs.map (·.source))
    ∧ (∀ s, s ∈ dedupFirst (docs.map (·.source)) ↔ s ∈ docs.map (·.source))
    ∧ dedupFirst [some "A", some "B", some "A", some "C"]
        = ([some "A", some "B", some "C"] : List (Option String)) := by
  refine ⟨?_, buildContext_eq_numbered docs, nodup_dedupFirst _,
    sublist_dedupFirst _, fun s => mem_dedupFirst _ s, by decide⟩
  cases docs with
  | nil => exact absurd rfl hne
  | cons d ds => simp [generateAnswer, hok]

/-- Witness for C7 at a concrete input. -/
theorem citation_order_and_numbering_witness :
    (generateAnswer "q"
        [{ pageContent := "t1", source := some "A" },
         { pageContent := "t2", source := some "B" },
         { pageContent := "t3", source := some "A" },
         { pageContent := "t4", source := some "C" }]
        (fun _ => .ok "antwoord")).1.sources
      = [some "A", some "B", some "C"] := by
  have h := citation_order_and_numbering "q"
    [{ pageContent := "t1", source := some "A" },
     { pageContent := "t2", source := some "B" },
     { pageContent := "t3", source := some "A" },
     { pageContent := "t4", source := some "C" }]
    (fun _ => .ok "antwoord") "antwoord" (List.cons_ne_nil _ _) rfl
  rw [h.1]
  decide

/-- C8: every `ChatResponse` produced by `generateAnswer`, on every path,
satisfies `foundRelevantInfo = false → sources = []`. -/
theorem chatResponse_invariant (query : String) (docs : List Doc)
    (llm : String → Except Unit String)
    (h : (generateAnswer query docs llm).1.foundRelevantInfo = false) :
    (generateAnswer query docs llm).1.sources = [] := by
  unfold generateAnswer at h ⊢
  by_cases hlen : docs.length = 0
  · simp [hlen]
  · simp only [hlen, if_false] at h ⊢
    cases hres : llm (createPrompt (buildContext docs) query) with
    | ok content => rw [hres] at h; simp at h
    | error e => rfl

/-- Witness for C8 at a concrete input. -/
theorem chatResponse_invariant_witness :
    (generateAnswer "q" [] (fun _ => .ok "a")).1.sources = [] :=
  chatResponse_invariant "q" [] (fun _ => .ok "a") rfl

/-! ### SHA-256 (embedding of node:crypto `createHash('sha256')`)

`generateChunkId` (src/utils/crypto.ts) feeds a string through node's
SHA-256 and renders the digest as lowercase hex.  The hash itself lives
in the platform library, so it is embedded here directly from FIPS
180-4, executable over `Nat` with explicit `% 2^32` truncation.  The
`sha256Hex` test vectors further down check the embedding against the
published digests. -/

/-- Truncation to a 32-bit word. -/
def w32 (n : Nat) : Nat := n % 4294967296

/-- Right rotation of a 32-bit word. -/
def rotr (n x : Nat) : Nat := w32 ((x >>> n) ||| (x <<< (32 - n)))

def ssig0 (x : Nat) : Nat := (rotr 7 x) ^^^ (rotr 18 x) ^^^ (x >>> 3)

def ssig1 (x : Nat) : Nat := (rotr 17 x) ^^^ (rotr 19 x) ^^^ (x >>> 10)

def bsig0 (x : Nat) : Nat := (rotr 2 x) ^^^ (rotr 13 x) ^^^ (rotr 22 x)

def bsig1 (x : Nat) : Nat := (rotr 6 x) ^^^ (rotr 11 x) ^^^ (rotr 25 x)

def chFn (x y z : Nat) : Nat := (x &&& y) ^^^ ((x ^^^ 4294967295) &&& z)

def majFn (x y z : Nat) : Nat := (x &&& y) ^^^ (x &&& z) ^^^ (y &&& z)

/-- The 64 SHA-256 round constants, written in decimal. -/
def K256 : List Nat :=
  [1116352408, 1899447441, 3049323471, 3921009573,
   961987163, 1508970993, 2453635748, 2870763221,
   3624381080, 310598401, 607225278, 1426881987,
   1925078388, 2162078206, 2614888103, 3248222580,
   3835390401, 4022224774, 264347078, 604807628,
   770255983, 1249150122, 1555081692, 1996064986,
   2554220882, 2821834349, 2952996808, 3210313671,
   3336571891, 3584528711, 113926993, 338241895,
   666307205, 773529912, 1294757372, 1396182291,
   1695183700, 1986661051, 2177026350, 2456956037,
   2730485921, 2820302411, 3259730800, 3345764771,
   3516065817, 3600352804, 4094571909, 275423344,
   430227734, 506948616, 659060556, 883997877,
   958139571, 1322822218, 1537002063, 1747873779,
   1955562222, 2024104815, 2227730452, 2361852424,
   2428436474, 2756734187, 3204031479, 3329325298]

/-- The eight 32-bit words of a SHA-256 state. -/
structure Hash8 where
  e0 : Nat
  e1 : Nat
  e2 : Nat
  e3 : Nat
  e4 : Nat
  e5 : Nat
  e6 : Nat
  e7 : Nat
deriving DecidableEq, Repr

/-- SHA-256 initial state, in decimal. -/
def initH : Hash8 :=
  ⟨1779033703, 3144134277, 1013904242, 2773480762,
   1359893119, 2600822924, 528734635, 1541459225⟩

/-- UTF-8 encoding of one code point (node hashes the JS string's UTF-8
bytes). -/
def utf8Bytes (c : Nat) : List Nat :=
  if c < 128 then [c]
  else if c < 2048 then [192 + c / 64, 128 + c % 64]
  else if c < 65536 then [224 + c / 4096, 128 + c / 64 % 64, 128 + c % 64]
  else [240 + c / 262144, 128 + c / 4096 % 64, 128 + c / 64 % 64, 128 + c % 64]

/-- UTF-8 bytes of a string. -/
def strBytes (s : String) : List Nat := (s.data.map (fun c => utf8Bytes c.toNat)).flatten

/-- SHA-256 padding: append `0x80`, zero-pad to 56 mod 64, then the
64-bit big-endian bit length. -/
def padBytes (msg : List Nat) : List Nat :=
  msg ++ [128] ++ List.replicate ((119 - msg.length % 64) % 64) 0
    ++ (List.range 8).map (fun i => ((msg.length * 8) >>> (8 * (7 - i))) % 256)

/-- Big-endian 32-bit words from a byte list. -/
def toWords : List Nat → List Nat
  | a :: b :: c :: d :: rest => (((a * 256 + b) * 256 + c) * 256 + d) :: toWords rest
  | _ => []

/-- One message-schedule extension step over the reversed schedule. -/
def schedStep (rev : List Nat) : Nat :=
  w32 (ssig1 (rev.getD 1 0) + rev.getD 6 0 + ssig0 (rev.getD 14 0) + rev.getD 15 0)

def extendSched : Nat → List Nat → List Nat
  | 0, rev => rev
  | n + 1, rev => extendSched n (schedStep rev :: rev)

/-- The 64-word message schedule of a block. -/
def schedule (ws : List Nat) : List Nat := (extendSched 48 ws.reverse).reverse

/-- One SHA-256 compression round; `kw` is the pair `(K[t], W[t])`. -/
def compressRound (st : Hash8) (kw : Nat × Nat) : Hash8 :=
  let t1 := w32 (st.e7 + bsig1 st.e4 + chFn st.e4 st.e5 st.e6 + kw.1 + kw.2)
  let t2 := w32 (bsig0 st.e0 + majFn st.e0 st.e1 st.e2)
  { e0 := w32 (t1 + t2), e1 := st.e0, e2 := st.e1, e3 := st.e2,
    e4 := w32 (st.e3 + t1), e5 := st.e4, e6 := st.e5, e7 := st.e6 }

/-- Compression of one 64-byte block into the chaining state. -/
def compressBlock (hv : Hash8) (block : List Nat) : Hash8 :=
  let st := (K256.zip (schedule (toWords block))).foldl compressRound hv
  { e0 := w32 (hv.e0 + st.e0), e1 := w32 (hv.e1 + st.e1),
    e2 := w32 (hv.e2 + st.e2), e3 := w32 (hv.e3 + st.e3),
    e4 := w32 (hv.e4 + st.e4), e5 := w32 (hv.e5 + st.e5),
    e6 := w32 (hv.e6 + st.e6), e7 := w32 (hv.e7 + st.e7) }

/-- Fixed-size contiguous slicing with fuel (structural so that it
reduces in the kernel): `chunkFuel s fuel l` cuts `l` into slices of
`s + 1` elements, given `l.length ≤ fuel`.  It is the embedding of the
slicing loop `for (i = 0; i < n; i += size) slice(i, i + size)` used
both for SHA-256 blocks and for the ChromaDB document batches. -/
def chunkFuel {α : Type} (s : Nat) : Nat → List α → List (List α)
  | 0, _ => []
  | _, [] => []
  | fuel + 1, x :: xs => ((x :: xs).take (s + 1)) :: chunkFuel s fuel ((x :: xs).drop (s + 1))

/-- `chunkList s l` cuts `l` in order into contiguous slices of at most
`s + 1` elements. -/
def chunkList {α : Type} (s : Nat) (l : List α) : List (List α) :=
  chunkFuel s l.length l

/-- Hex rendering of one nibble (lowercase, as node's `digest('hex')`). -/
def hexChar (i : Fin 16) : Char :=
  if i.1 < 10 then Char.ofNat (48 + i.1) else Char.ofNat (87 + i.1)

def nib (n k : Nat) : Fin 16 := ⟨n / 16 ^ k % 16, Nat.mod_lt _ (by norm_num)⟩

/-- Eight lowercase hex characters of a 32-bit word, big-endian. -/
def hexW32 (n : Nat) : String :=
  String.mk [hexChar (nib n 7), hexChar (nib n 6), hexChar (nib n 5), hexChar (nib n 4),
             hexChar (nib n 3), hexChar (nib n 2), hexChar (nib n 1), hexChar (nib n 0)]

/-- Lowercase hex digest of a state. -/
def hexDigest (h : Hash8) : String :=
  hexW32 h.e0 ++ hexW32 h.e1 ++ hexW32 h.e2 ++ hexW32 h.e3
    ++ hexW32 h.e4 ++ hexW32 h.e5 ++ hexW32 h.e6 ++ hexW32 h.e7

/-- SHA-256 of a string (UTF-8 bytes), rendered as lowercase hex. -/
def sha256Hex (s : String) : String :=
  hexDigest ((chunkList 63 (padBytes (strBytes s))).foldl compressBlock initH)

set_option maxRecDepth 100000

/-- FIPS 180-4 test vector: the empty message. -/
theorem sha256Hex_empty :
    sha256Hex "" = "e3b0c44298fc1c149afbf4c8996fb92427ae41e4649b934ca495991b7852b855" := by
  decide

/-- FIPS 180-4 test vector: "abc". -/
theorem sha256Hex_abc :
    sha256Hex "abc" = "ba7816bf8f01cfea414140de5dae2223b00361a396177a9cb410ff61f20015ad" := by
  decide

/-- FIPS 180-4 test vector: the 56-byte two-block message. -/
theorem sha256Hex_two_blocks :
    sha256Hex "abcdbcdecdefdefgefghfghighijhijkijkljklmklmnlmnomnopnopq"
      = "248d6a61d20638b8e5c026930c3e6039a33ce45964ff2167f6ecedd419db06c1" := by
  decide

/-- Shallow embedding of `generateChunkId` (src/utils/crypto.ts): the
SHA-256 hex digest of the template literal
`${source}-${chunkIndex}-${content}`. -/
def generateChunkId (content source : String) (chunkIndex : Nat) : String :=
  sha256Hex (source ++ "-" ++ toString chunkIndex ++ "-" ++ content)

/-- The sixteen lowercase hex characters. -/
def hexDigits : List Char := "0123456789abcdef".data

theorem hexChar_mem : ∀ i : Fin 16, hexChar i ∈ hexDigits := by decide

theorem data_mk (l : List Char) : (String.mk l).data = l := rfl

theorem hexW32_length (n : Nat) : (hexW32 n).length = 8 := rfl

theorem hexW32_mem_hex (n : Nat) : ∀ ch ∈ (hexW32 n).data, ch ∈ hexDigits := by
  simp only [hexW32, data_mk, List.mem_cons, List.not_mem_nil, or_false]
  rintro ch (rfl | rfl | rfl | rfl | rfl | rfl | rfl | rfl) <;> exact hexChar_mem _

theorem hexDigest_length (h : Hash8) : (hexDigest h).length = 64 := by
  simp [hexDigest, String.length_append, hexW32_length]

theorem hexDigest_all_hex (h : Hash8) :
    (hexDigest h).data.all (fun ch => hexDigits.contains ch) = true := by
  simp [hexDigest, hexW32, data_mk, String.data_append, hexChar_mem]

/-- C9: `generateChunkId` is a pure deterministic function — equal inputs
always give equal output — its output is the SHA-256 hex digest of the
concatenation `source-chunkIndex-content`, and for every input the output
is a 64-character string of lowercase hex digits (matches
`^[0-9a-f]{64}$`). -/
theorem chunkId_deterministic_format (c s : String) (i : Nat) :
    generateChunkId c s i = generateChunkId c s i
    ∧ generateChunkId c s i = sha256Hex (s ++ "-" ++ toString i ++ "-" ++ c)
    ∧ (generateChunkId c s i).length = 64
    ∧ (generateChunkId c s i).data.all (fun ch => hexDigits.contains ch) = true := by
  refine ⟨rfl, rfl, ?_, ?_⟩
  · exact hexDigest_length _
  · exact hexDigest_all_hex _

/-- C10: the chunk id is not injective over input triples: the separator
`-` is ambiguous, so the distinct triples `("2-x", "a", 1)` and
`("x", "a-1", 2)` serialize to the same preimage string `"a-1-2-x"` and
hash to the same id without any SHA-256 collision. -/
theorem chunkId_not_injective :
    generateChunkId "2-x" "a" 1 = generateChunkId "x" "a-1" 2
    ∧ ("a" ++ "-" ++ toString (1 : Nat) ++ "-" ++ "2-x"
        = "a-1" ++ "-" ++ toString (2 : Nat) ++ "-" ++ "x")
    ∧ ("2-x", "a", (1 : Nat)) ≠ ("x", "a-1", (2 : Nat)) := by
  refine ⟨?_, by decide, by decide⟩
  exact congrArg sha256Hex (by decide)

/-! ### Vector stores: fallback persistence, backend selection, batched
ChromaDB ingestion

Embedding vectors are abstracted as `List Int`; the external embedding
service is an explicit function parameter `embed`, and the number of
calls made to it is returned alongside results. -/

/-- The in-memory vector store held by langchain's `MemoryVectorStore`:
one (document, embedding) pair per added document. -/
structure MemStore where
  vectors : List (Doc × List Int)
deriving DecidableEq, Repr

/-- `MemoryVectorStore.fromDocuments(documents, embeddings)`: computes an
embedding for every document via the embedding service and stores the
pairs.  Second component: embedding-service calls made (one per
document). -/
def fromDocuments (embed : String → List Int) (docs : List Doc) : MemStore × Nat :=
  ({ vectors := docs.map (fun d => (d, embed d.pageContent)) }, docs.length)

/-- The persisted JSON snapshot contract
(`{documents: [{pageContent, metadata}], embeddings: [[...], ...]}`). -/
structure Snapshot where
  documents : List Doc
  embeddings : List (List Int)
deriving DecidableEq, Repr

/-- `createFallbackMemoryStore` (part_001 lines 716-762, part_005 lines
447-490): builds the in-memory store via `fromDocuments`, then writes
the JSON snapshot whose `embeddings` array is produced by a second round
of `embedQuery` calls, one per document.  Returns (store, snapshot
written, embedding-service calls). -/
def createFallbackMemoryStore (embed : String → List Int) (docs : List Doc) :
    MemStore × Snapshot × Nat :=
  ((fromDocuments embed docs).1,
   { documents := docs, embeddings := docs.map (fun d => embed d.pageContent) },
   (fromDocuments embed docs).2 + docs.length)

/-- `RAGChatbot.loadVectorStore` (src/chat.ts lines 38-64) /
`RAGChatbot.loadFallbackMemoryStore` (part_005 lines 63-96): parses the
snapshot, rebuilds `Document` objects from `vectorData.documents` only —
the stored `vectorData.embeddings` array is never read — and calls
`MemoryVectorStore.fromDocuments(documents, this.embeddings)`, which
invokes the embedding service on every document again.  Second
component: embedding-service calls made during the reload. -/
def loadFallbackMemoryStore (embed : String → List Int) (snap : Snapshot) :
    MemStore × Nat :=
  fromDocuments embed snap.documents

/-- C1 counterexample: reloading a snapshot is not recomputation-free.
For a concrete one-document snapshot whose stored embedding is `[7, 7]`,
reloading with an embedding service that now returns `[9]` makes one
embedding-service call (the claim requires zero) and produces a store
whose vector is `[9]`, not the stored `[7, 7]` — the stored embeddings
are ignored, not reused. -/
theorem snapshot_reload_recomputes :
    (loadFallbackMemoryStore (fun _ => [9])
        { documents := [{ pageContent := "zon", source := some "a.html" }],
          embeddings := [[7, 7]] }).2 = 1
    ∧ ((loadFallbackMemoryStore (fun _ => [9])
        { documents := [{ pageContent := "zon", source := some "a.html" }],
          embeddings := [[7, 7]] }).1.vectors.map Prod.snd) ≠ [[7, 7]] :=
  ⟨rfl, by decide⟩

/-- C1 (amended): reload reconstructs the documents from the stored
snapshot but recomputes their embeddings, invoking the embedding service
once per stored document; the stored `embeddings` array is ignored.
When the same (deterministic) embedding service is available at reload
time, the reloaded store equals the pre-save store — behavioral
equivalence for retrieval — and the recomputed vectors coincide with the
stored ones. -/
theorem snapshot_roundtrip_recomputed (embed : String → List Int) (docs : List Doc) :
    loadFallbackMemoryStore embed (createFallbackMemoryStore embed docs).2.1
      = ((createFallbackMemoryStore embed docs).1, docs.length)
    ∧ ((loadFallbackMemoryStore embed (createFallbackMemoryStore embed docs).2.1).1.vectors.map
          Prod.snd)
        = (createFallbackMemoryStore embed docs).2.1.embeddings := by
  constructor
  · rfl
  · simp [loadFallbackMemoryStore, createFallbackMemoryStore, fromDocuments,
      List.map_map, Function.comp]

/-- The store actively used by a chatbot session. -/
inductive ActiveStore
  | chroma
  | memory (ms : MemStore)
deriving DecidableEq, Repr

/-- `RAGChatbot.tryConnectToChromaDB` (part_005 lines 40-61): constructs
the client, then issues `similaritySearch('test', 1)` as a connectivity
probe ("Test the connection by trying to query"); the handle is returned
only if the probe succeeds.  Second component: probe queries issued. -/
def tryConnectToChromaDB (probeOk : Bool) : Option Unit × Nat :=
  if probeOk then (some (), 1) else (none, 1)

/-- `RAGChatbot.loadVectorStore` (part_005 lines 98-118): ChromaDB first
(with probe); on probe failure fall back to the JSON snapshot; if that
is unavailable too, a hard error.  `snap = none` models a missing or
unparsable snapshot file.  Carries the probe-query count. -/
def chatLoadVectorStore (probeOk : Bool) (snap : Option Snapshot)
    (embed : String → List Int) : Except Unit (ActiveStore × Nat) :=
  match tryConnectToChromaDB probeOk with
  | (some _, n) => .ok (ActiveStore.chroma, n)
  | (none, n) =>
    match snap with
    | some sn => .ok (ActiveStore.memory (loadFallbackMemoryStore embed sn).1, n)
    | none => .error ()

/-- Ingestion-time `createChromaVectorStore` (part_001 lines 437-455,
part_005 lines 428-445): only constructs the client and returns it.
`new Chroma(...)` performs no network I/O (which is why the chat-side
`tryConnectToChromaDB` must issue an explicit `similaritySearch` to test
the connection), so the result is independent of server reachability
(`serverReachable` is unused, mirroring that nothing in the function
consults the server) and zero probe queries are issued before the
handle is declared usable. -/
def createChromaVectorStore (_serverReachable : Bool) : Option Unit × Nat :=
  (some (), 0)

/-- C3 counterexample: at ingestion time no connectivity probe guards
the ChromaDB backend.  With the server unreachable,
`createChromaVectorStore` still returns a usable handle ("Connected to
ChromaDB successfully") having issued zero probe queries — the claim
requires a probe before use and fallback on probe failure. -/
theorem ingest_connect_no_probe :
    createChromaVectorStore false = (some (), 0) := rfl

/-- C3 (amended): at chat load time the ChromaDB backend is probed with
a trivial similarity query before being used, and on probe failure the
fallback path (JSON snapshot, else hard error) is taken; at ingestion
time `createChromaVectorStore` performs no probe — it returns the
constructed handle unconditionally, independent of server reachability,
so connection failures only surface later during the batch inserts. -/
theorem probe_before_use (snap : Option Snapshot) (sn : Snapshot)
    (embed : String → List Int) (r : Bool) :
    chatLoadVectorStore true snap embed = .ok (ActiveStore.chroma, 1)
    ∧ chatLoadVectorStore false (some sn) embed
        = .ok (ActiveStore.memory (loadFallbackMemoryStore embed sn).1, 1)
    ∧ chatLoadVectorStore false none embed = .error ()
    ∧ createChromaVectorStore r = (some (), 0) :=
  ⟨rfl, rfl, rfl, rfl⟩

/-- Outcome of one batch insert after the `.catch` handler (part_001
lines 666-676): either the batch's documents were added, or the failure
marker `{error: true, batchNumber}` carrying the 1-based batch number.
`fail n = true` models rejection of batch number `n`'s insert. -/
def insertOutcome (fail : Nat → Bool) (numbered : Nat × List Doc) : Sum (List Doc) Nat :=
  if fail numbered.1 then Sum.inr numbered.1 else Sum.inl numbered.2

/-- One concurrency wave (part_001 lines 656-684): all batch inserts of
the wave are issued together and awaited together (`Promise.all`); each
failure is caught and becomes its marker, so sibling batches in the wave
are unaffected.  `start` is the 0-based index of the wave's first batch
(the loop variable `i`), so batch numbers are `start + index + 1`. -/
def processWave (fail : Nat → Bool) (start : Nat) (w : List (List Doc)) :
    List (Sum (List Doc) Nat) :=
  (w.enumFrom start).map (fun p => insertOutcome fail (p.1 + 1, p.2))

/-- The wave loop (`for (i = 0; i < totalBatches; i += CONCURRENCY_LIMIT)`):
waves are strictly sequential — each wave is awaited in full before the
next starts — with the batch-number base advancing by the wave length. -/
def processWaves (fail : Nat → Bool) : Nat → List (List (List Doc)) → List (Sum (List Doc) Nat)
  | _, [] => []
  | start, w :: ws => processWave fail start w ++ processWaves fail (start + w.length) ws

/-- Documents present in the networked store after ingestion: the
concatenation of the successfully inserted batches. -/
def storedDocs (rs : List (Sum (List Doc) Nat)) : List Doc :=
  (rs.filterMap (fun r => match r with | .inl b => some b | .inr _ => none)).flatten

/-- The failure markers recorded during ingestion, in order. -/
def failedBatches (rs : List (Sum (List Doc) Nat)) : List Nat :=
  rs.filterMap (fun r => match r with | .inl _ => none | .inr n => some n)

/-- Result of a run of `createVectorStoreWithChromaDB`: which backend
handle was returned, whether the JSON snapshot was written before
returning, and the per-batch insert log of the ChromaDB path. -/
structure IngestOutcome where
  usedChroma : Bool
  snapshotWritten : Bool
  log : List (Sum (List Doc) Nat)
deriving Repr

/-- The batched wave version of `createVectorStoreWithChromaDB`
(part_001 lines 592-711, part_005 lines 492-599).  `apiKey` =
`config.openaiApiKey` present; `useFallback` = the `--useFallback` flag;
`ctorOk` = `new Chroma` did not throw (the `if (chromaStore)` test);
`fail` = which 1-based batch numbers reject; `docs` = the loaded chunk
list.  Batches of `CHROMADB_BATCH_SIZE = 100`, waves of
`CONCURRENCY_LIMIT = 10`.  On the ChromaDB path the waves run and the
Chroma handle is returned with no snapshot write; only the two fallback
paths call `createFallbackMemoryStore`, which writes the snapshot. -/
def createVectorStoreWithChromaDB (apiKey useFallback ctorOk : Bool)
    (fail : Nat → Bool) (docs : List Doc) : Except Unit IngestOutcome :=
  if !apiKey then .error ()
  else if docs.length = 0 then .error ()
  else if useFallback then .ok { usedChroma := false, snapshotWritten := true, log := [] }
  else if ctorOk then
    .ok { usedChroma := true, snapshotWritten := false,
          log := processWaves fail 0 (chunkList 9 (chunkList 99 docs)) }
  else .ok { usedChroma := false, snapshotWritten := true, log := [] }

/-- The earlier non-batched `createVectorStoreWithChromaDB` (part_002
lines 378-418): a single uncaught `addDocuments` call for the whole
chunk list, after which `createFallbackMemoryStore` writes the JSON
snapshot before the Chroma handle is returned. -/
def createVectorStoreWithChromaDBv1 (apiKey ctorOk insertOk : Bool)
    (docs : List Doc) : Except Unit IngestOutcome :=
  if !apiKey then .error ()
  else if ctorOk then
    if insertOk then
      .ok { usedChroma := true, snapshotWritten := true, log := [Sum.inl docs] }
    else .error ()
  else .ok { usedChroma := false, snapshotWritten := true, log := [] }

/-- C2 counterexample: a concrete ChromaDB ingestion run of the batched
version in which every insertion wave completes successfully, yet the
function returns the backend handle with `snapshotWritten = false` — no
LocalIndex snapshot is persisted on this path. -/
theorem chroma_path_snapshot_missing :
    createVectorStoreWithChromaDB true false true (fun _ => false)
        [{ pageContent := "zon", source := some "kb.html" }]
      = .ok { usedChroma := true, snapshotWritten := false,
              log := [Sum.inl [{ pageContent := "zon", source := some "kb.html" }]] } := rfl

/-- C2 (amended): the batched wave version returns the ChromaDB handle
without persisting a LocalIndex snapshot (the snapshot is written only
on the `--useFallback` and connection-failure paths); the earlier
non-batched variant is the one that also persists the snapshot after
ChromaDB insertion. -/
theorem chroma_path_no_secondary_copy (fail : Nat → Bool) (d : Doc)
    (ds docs : List Doc) :
    createVectorStoreWithChromaDB true false true fail (d :: ds)
      = .ok { usedChroma := true, snapshotWritten := false,
              log := processWaves fail 0 (chunkList 9 (chunkList 99 (d :: ds))) }
    ∧ createVectorStoreWithChromaDBv1 true true true docs
      = .ok { usedChroma := true, snapshotWritten := true, log := [Sum.inl docs] } :=
  ⟨rfl, rfl⟩

/-! ### Structural lemmas for the batch partition and the wave loop -/

theorem chunkFuel_nil {α : Type} (s f : Nat) : chunkFuel s f ([] : List α) = [] := by
  cases f <;> rfl

theorem chunkFuel_congr {α : Type} (s : Nat) :
    ∀ (f₁ f₂ : Nat) (l : List α), l.length ≤ f₁ → l.length ≤ f₂ →
      chunkFuel s f₁ l = chunkFuel s f₂ l := by
  intro f₁
  induction f₁ with
  | zero =>
    intro f₂ l h₁ _
    rw [List.eq_nil_of_length_eq_zero (Nat.le_zero.mp h₁)]
    rw [chunkFuel_nil, chunkFuel_nil]
  | succ g ih =>
    intro f₂ l h₁ h₂
    cases l with
    | nil => rw [chunkFuel_nil, chunkFuel_nil]
    | cons x xs =>
      cases f₂ with
      | zero => simp at h₂
      | succ g₂ =>
        show _ :: chunkFuel s g _ = _ :: chunkFuel s g₂ _
        congr 1
        apply ih
        · rw [List.length_drop]
          simp only [List.length_cons] at h₁ ⊢
          omega
        · rw [List.length_drop]
          simp only [List.length_cons] at h₂ ⊢
          omega

theorem chunkList_cons {α : Type} (s : Nat) (x : α) (xs : List α) :
    chunkList s (x :: xs)
      = ((x :: xs).take (s + 1)) :: chunkList s ((x :: xs).drop (s + 1)) := by
  show chunkFuel s (xs.length + 1) (x :: xs) = _
  rw [chunkFuel]
  congr 1
  apply chunkFuel_congr
  · rw [List.length_drop]
    simp only [List.length_cons]
    omega
  · exact Nat.le_refl _

theorem chunkList_flatten_aux {α : Type} (s : Nat) :
    ∀ (n : Nat) (l : List α), l.length ≤ n → (chunkList s l).flatten = l := by
  intro n
  induction n with
  | zero =>
    intro l h
    rw [List.eq_nil_of_length_eq_zero (Nat.le_zero.mp h)]
    rfl
  | succ m ih =>
    intro l h
    cases l with
    | nil => rfl
    | cons x xs =>
      rw [chunkList_cons, List.flatten_cons, ih ((x :: xs).drop (s + 1)) ?_,
        List.take_append_drop]
      rw [List.length_drop]
      simp only [List.length_cons] at h ⊢
      omega

/-- The contiguous slices reassemble to the original list: the partition
loses nothing and preserves order. -/
theorem chunkList_flatten {α : Type} (s : Nat) (l : List α) :
    (chunkList s l).flatten = l :=
  chunkList_flatten_aux s l.length l (Nat.le_refl _)

theorem chunkList_mem_aux {α : Type} (s : Nat) :
    ∀ (n : Nat) (l : List α), l.length ≤ n →
      ∀ b ∈ chunkList s l, b.length ≤ s + 1 ∧ b ≠ [] := by
  intro n
  induction n with
  | zero =>
    intro l h b hb
    rw [List.eq_nil_of_length_eq_zero (Nat.le_zero.mp h)] at hb
    simp [chunkList, chunkFuel] at hb
  | succ m ih =>
    intro l h b hb
    cases l with
    | nil => simp [chunkList, chunkFuel] at hb
    | cons x xs =>
      rw [chunkList_cons, List.mem_cons] at hb
      rcases hb with rfl | hb
      · constructor
        · rw [List.length_take]
          exact Nat.min_le_left _ _
        · simp [List.take_cons]
      · refine ih _ ?_ b hb
        rw [List.length_drop]
        simp only [List.length_cons] at h ⊢
        omega

/-- Every slice has at most `s + 1` elements and is non-empty. -/
theorem chunkList_mem {α : Type} (s : Nat) (l : List α) :
    ∀ b ∈ chunkList s l, b.length ≤ s + 1 ∧ b ≠ [] :=
  chunkList_mem_aux s l.length l (Nat.le_refl _)

theorem chunkList_length_aux {α : Type} (s : Nat) :
    ∀ (n : Nat) (l : List α), l.length ≤ n →
      (chunkList s l).length = (l.length + s) / (s + 1) := by
  intro n
  induction n with
  | zero =>
    intro l h
    rw [List.eq_nil_of_length_eq_zero (Nat.le_zero.mp h)]
    have hz : s / (s + 1) = 0 := Nat.div_eq_of_lt (by omega)
    simp [chunkList, chunkFuel, hz]
  | succ m ih =>
    intro l h
    cases l with
    | nil =>
      have hz : s / (s + 1) = 0 := Nat.div_eq_of_lt (by omega)
      simp [chunkList, chunkFuel, hz]
    | cons x xs =>
      rw [chunkList_cons, List.length_cons, ih ((x :: xs).drop (s + 1)) ?_]
      · rw [List.length_drop]
        simp only [List.length_cons] at h ⊢
        by_cases hle : xs.length + 1 ≤ s + 1
        · have h0 : xs.length + 1 - (s + 1) = 0 := by omega
          rw [h0]
          have hz : (0 + s) / (s + 1) = 0 := Nat.div_eq_of_lt (by omega)
          rw [hz]
          have h1 : (xs.length + 1 + s) / (s + 1) = 1 :=
            Nat.div_eq_of_lt_le (by omega) (by omega)
          omega
        · have hsplit : xs.length + 1 + s = (xs.length + 1 - (s + 1) + s) + (s + 1) := by
            omega
          rw [hsplit, Nat.add_div_right _ (Nat.succ_pos s)]
      · rw [List.length_drop]
        simp only [List.length_cons] at h ⊢
        omega

/-- The number of slices is the ceiling `⌈length / (s+1)⌉`. -/
theorem chunkList_length {α : Type} (s : Nat) (l : List α) :
    (chunkList s l).length = (l.length + s) / (s + 1) :=
  chunkList_length_aux s l.length l (Nat.le_refl _)

/-- The wave loop is the flat batch enumeration: processing the batches
wave by wave, with the batch-number base advancing by each wave's
length, handles every batch exactly once with its global 1-based number,
in order. -/
theorem processWaves_eq_flat (fail : Nat → Bool) :
    ∀ (ws : List (List (List Doc))) (start : Nat),
      processWaves fail start ws
        = (ws.flatten.enumFrom start).map (fun p => insertOutcome fail (p.1 + 1, p.2)) := by
  intro ws
  induction ws with
  | nil => intro start; rfl
  | cons w ws ih =>
    intro start
    rw [processWaves, List.flatten_cons, List.enumFrom_append, List.map_append, ih]
    rfl

theorem failedBatches_flat (fail : Nat → Bool) :
    ∀ (bs : List (List Doc)) (start : Nat),
      failedBatches ((bs.enumFrom start).map (fun p => insertOutcome fail (p.1 + 1, p.2)))
        = (List.range' (start + 1) bs.length).filter fail := by
  intro bs
  induction bs with
  | nil => intro start; rfl
  | cons b bs ih =>
    intro start
    have ihs := ih (start + 1)
    unfold failedBatches at ihs ⊢
    by_cases hf : fail (start + 1)
    · simp [List.enumFrom, insertOutcome, hf, List.range'_succ,
        List.filterMap_map] at ihs ⊢
      exact ihs
    · simp [List.enumFrom, insertOutcome, hf, List.range'_succ,
        List.filterMap_map] at ihs ⊢
      exact ihs

theorem storedDocs_flat (fail : Nat → Bool) :
    ∀ (bs : List (List Doc)) (start : Nat),
      storedDocs ((bs.enumFrom start).map (fun p => insertOutcome fail (p.1 + 1, p.2)))
        = (((bs.enumFrom start).filter (fun p => !fail (p.1 + 1))).map Prod.snd).flatten := by
  intro bs
  induction bs with
  | nil => intro start; rfl
  | cons b bs ih =>
    intro start
    have ihs := ih (start + 1)
    unfold storedDocs at ihs ⊢
    by_cases hf : fail (start + 1)
    · simp [List.enumFrom, insertOutcome, hf, List.filterMap_map] at ihs ⊢
      exact ihs
    · simp [List.enumFrom, insertOutcome, hf, List.filterMap_map] at ihs ⊢
      exact ihs

/-- C6: the chunk list is partitioned in order into `⌈n/100⌉` contiguous
non-empty batches of at most 100; batches are grouped into sequential
waves of at most 10; the wave loop processes exactly the flat batch list
with global 1-based numbering; a failing batch is recorded by number
while sibling batches' documents are still inserted; and the ingestion
call returns `.ok` (never raises) for every failure pattern. -/
theorem batched_wave_insertion (docs : List Doc) (fail : Nat → Bool) :
    (chunkList 99 docs).flatten = docs
    ∧ (∀ b ∈ chunkList 99 docs, b.length ≤ 100 ∧ b ≠ [])
    ∧ (chunkList 99 docs).length = (docs.length + 99) / 100
    ∧ (chunkList 9 (chunkList 99 docs)).flatten = chunkList 99 docs
    ∧ (∀ w ∈ chunkList 9 (chunkList 99 docs), w.length ≤ 10)
    ∧ processWaves fail 0 (chunkList 9 (chunkList 99 docs))
        = ((chunkList 99 docs).enum.map (fun p => insertOutcome fail (p.1 + 1, p.2)))
    ∧ failedBatches (processWaves fail 0 (chunkList 9 (chunkList 99 docs)))
        = (List.range' 1 (chunkList 99 docs).length).filter fail
    ∧ storedDocs (processWaves fail 0 (chunkList 9 (chunkList 99 docs)))
        = ((((chunkList 99 docs).enum).filter (fun p => !fail (p.1 + 1))).map Prod.snd).flatten
    ∧ (∀ d ds, (createVectorStoreWithChromaDB true false true fail (d :: ds)).isOk = true) := by
  have hflat : processWaves fail 0 (chunkList 9 (chunkList 99 docs))
      = ((chunkList 99 docs).enum.map (fun p => insertOutcome fail (p.1 + 1, p.2))) := by
    rw [processWaves_eq_flat, chunkList_flatten]
    rfl
  refine ⟨chunkList_flatten 99 docs, chunkList_mem 99 docs, chunkList_length 99 docs,
    chunkList_flatten 9 _, fun w hw => (chunkList_mem 9 _ w hw).1, hflat, ?_, ?_, ?_⟩
  · rw [hflat]
    have := failedBatches_flat fail (chunkList 99 docs) 0
    simpa [List.enum] using this
  · rw [hflat]
    have := storedDocs_flat fail (chunkList 99 docs) 0
    simpa [List.enum] using this
  · intro d ds
    rfl

/-- Witness for C6 at a concrete input: 201 chunks form 3 batches; with
batch 2 failing, the recorded failures are exactly `[2]`. -/
theorem batched_wave_insertion_witness :
    failedBatches (processWaves (fun n => n == 2) 0
        (chunkList 9 (chunkList 99
          (List.replicate 201 ({ pageContent := "c", source := some "s" } : Doc)))))
      = [2] := by
  rw [(batched_wave_insertion
    (List.replicate 201 ({ pageContent := "c", source := some "s" } : Doc))
    (fun n => n == 2)).2.2.2.2.2.2.1]
  decide

end Zonneplan
